import Mathlib

/-!
Shallow embedding of `src/src-tauri/resources/simple_whisper_solution.py`,
a small CLI utility with two subcommands: `download` (fetch a whisper model
file if absent) and `transcribe <audio_path>` (run the transcription library
and print a JSON document).

The Python code is effectful: it touches the filesystem, the network and the
package manager.  We embed it as pure functions over
  * an `Oracle` fixing the outcome of every external operation the script can
    perform (HEAD request, GET download, library import, pip install,
    model load + transcription), and
  * a `World` carrying the filesystem facts the script reads and writes,
    together with counters of network / pip activity (each attempted HEAD
    request, GET transfer and pip subprocess bumps its counter by one).
Each embedded function returns its Python return value together with the
updated `World`; where the script prints lines that the spec talks about we
also return the printed lines as a `List String`.
-/

/-- `MODEL_SIZE = "tiny"` (line 55 of the script). -/
def MODEL_SIZE : String := "tiny"

/-- `MODEL_LANG = "en"` (line 56). -/
def MODEL_LANG : String := "en"

/-- `APP_DATA_DIR = os.path.expanduser("~/.fethr")` (line 57); we keep the
unexpanded form, the scripts only uses the path as an opaque string. -/
def APP_DATA_DIR : String := "~/.fethr"

/-- `MODELS_DIR = os.path.join(APP_DATA_DIR, "models")` (line 58). -/
def MODELS_DIR : String := APP_DATA_DIR ++ "/models"

/-- `WHISPER_MODEL_URL` (line 60): the fixed download URL built from the
size and language tags. -/
def WHISPER_MODEL_URL : String :=
  "https://huggingface.co/ggerganov/whisper.cpp/resolve/main/ggml-"
    ++ MODEL_SIZE ++ "." ++ MODEL_LANG ++ ".bin"

/-- `WHISPER_MODEL_PATH` (line 61): the local file the model is saved to. -/
def WHISPER_MODEL_PATH : String :=
  MODELS_DIR ++ "/ggml-" ++ MODEL_SIZE ++ "." ++ MODEL_LANG ++ ".bin"

/-- Outcome of `urllib.request.urlopen(req, timeout=10)` on the HEAD request
in `verify_model_download` (lines 111-113).  `exc` covers every raised
exception (socket timeout, `URLError`, an `HTTPError` for a non-2xx status
raised by the default opener, ...); `resp` is a returned response with its
`status` and optional numeric `Content-Length` header. -/
inductive HeadResult where
  | exc (msg : String)
  | resp (status : Nat) (contentLength : Option Nat)
deriving DecidableEq, Repr

/-- The dictionary returned by `model.transcribe(audio_path)` (line 166),
restricted to the keys the script reads: `result["text"]`,
`result.get("language", "en")`, `result.get("segments", [])`.
A missing key is `none`; segment records are kept opaque as strings. -/
structure LibDict where
  text : Option String
  language : Option String
  segments : Option (List String)
deriving DecidableEq, Repr

/-- The outcomes of every external operation one run of the script can
perform, fixed up front.

* `headResult` — answer to the HEAD request of `verify_model_download`;
* `getResult` — outcome of `urllib.request.urlretrieve` in `download_model`
  (line 89): `.ok` writes the file, `.error e` is the raised exception
  rendered as the string `str(e)`;
* `whisperImportable` — whether `import whisper` succeeds on first attempt
  (line 129);
* `pipWhisperOk` — whether `subprocess.check_call([... "pip", "install",
  "openai-whisper"])` exits zero (line 135);
* `whisperImportAfterPip` — whether `import whisper` succeeds after a pip
  install that exited zero (line 157): a zero pip exit does not by itself
  guarantee that the subsequent import succeeds;
* `libResult` — combined outcome of `whisper.load_model` +
  `model.transcribe` (lines 162-166): `.error e` if either raised, with
  `str(e)`, else the result dictionary. -/
structure Oracle where
  headResult : HeadResult
  getResult : Except String Unit
  whisperImportable : Bool
  pipWhisperOk : Bool
  whisperImportAfterPip : Bool
  libResult : Except String LibDict
deriving Repr

/-- The facts about the outside world the script reads and writes, plus
effect counters: `headOps`, `getOps` count attempted HEAD requests and GET
transfers (network activity), `pipOps` counts pip install subprocesses. -/
structure World where
  modelFileExists : Bool
  modelsDirExists : Bool
  audioFiles : List String
  headOps : Nat
  getOps : Nat
  pipOps : Nat
deriving DecidableEq, Repr

/-- `sub` is a prefix of `s` (on character lists). -/
def listIsPre : List Char → List Char → Bool
  | [], _ => true
  | _ :: _, [] => false
  | a :: as, b :: bs => a = b && listIsPre as bs

/-- `sub` occurs as a contiguous run inside `s` (on character lists). -/
def listHasSub : List Char → List Char → Bool
  | [], sub => sub.isEmpty
  | c :: rest, sub => listIsPre sub (c :: rest) || listHasSub rest sub

/-- `sub` occurs as a contiguous substring of `s`; models Python's
`"HTTP Error 404" in str(e)` (line 100). -/
def strContains (s sub : String) : Bool :=
  listHasSub s.data sub.data

/-- `download_model()` (lines 73-104).  Returns the boolean return value,
the updated world, and the printed lines.  If the local file exists it
returns `True` at once (no validation, no network).  Otherwise it creates
the parent directory and attempts the GET transfer (one network operation);
on success the file now exists; on any exception it prints a human-readable
error, with two extra lines when `str(e)` contains "HTTP Error 404". -/
def download_model (o : Oracle) (w : World) : Bool × World × List String :=
  if w.modelFileExists then
    (true, w, ["Model already exists at: " ++ WHISPER_MODEL_PATH])
  else
    let w1 : World := { w with modelsDirExists := true }
    let msgs0 : List String :=
      ["Downloading Whisper model (" ++ MODEL_SIZE ++ "." ++ MODEL_LANG
         ++ ") from Hugging Face...",
       "Downloading from: " ++ WHISPER_MODEL_URL,
       "Saving to: " ++ WHISPER_MODEL_PATH]
    match o.getResult with
    | Except.ok _ =>
        (true,
         { w1 with modelFileExists := true, getOps := w1.getOps + 1 },
         msgs0 ++ ["Model downloaded to: " ++ WHISPER_MODEL_PATH])
    | Except.error e =>
        let base := msgs0 ++ ["Error downloading model: " ++ e]
        if strContains e "HTTP Error 404" then
          (false, { w1 with getOps := w1.getOps + 1 },
           base ++
             ["Model file not found at URL: " ++ WHISPER_MODEL_URL,
              "The model may have been moved or renamed. Please check the repository for the latest model URLs."])
        else
          (false, { w1 with getOps := w1.getOps + 1 }, base)

/-- The request `verify_model_download` issues (lines 111-112):
`urllib.request.Request(model_url, method="HEAD")` opened with
`urllib.request.urlopen(req, timeout=10)`: a metadata-only HEAD request to
the model URL with a fixed 10-second timeout.  `Oracle.headResult` is the
environment's answer to exactly this request. -/
structure HeadRequest where
  url : String
  method : String
  timeoutSeconds : Nat
deriving DecidableEq, Repr

def modelHeadRequest : HeadRequest :=
  { url := WHISPER_MODEL_URL, method := "HEAD", timeoutSeconds := 10 }

/-- `verify_model_download()` (lines 106-124).  Returns the boolean return
value, the file size (in bytes) whose MB rendering it reports on success,
and the updated world (one HEAD request attempted).
With a 200 response carrying no Content-Length header, `content_length` is
`None` and `int(None)` on line 117 raises `TypeError`, which the
`except` clause converts into a `False` return. -/
def verify_model_download (o : Oracle) (w : World) :
    Bool × Option Nat × World :=
  let w1 : World := { w with headOps := w.headOps + 1 }
  match o.headResult with
  | HeadResult.exc _ => (false, none, w1)
  | HeadResult.resp status contentLength =>
      if status = 200 then
        match contentLength with
        | some n => (true, some n, w1)
        | none => (false, none, w1)
      else
        (false, none, w1)

/-- `install_whisper()` (lines 126-139).  `True` with no side effect when
the import succeeds; otherwise one pip subprocess, returning its success. -/
def install_whisper (o : Oracle) (w : World) : Bool × World :=
  if o.whisperImportable then
    (true, w)
  else if o.pipWhisperOk then
    (true, { w with pipOps := w.pipOps + 1 })
  else
    (false, { w with pipOps := w.pipOps + 1 })

/-- The JSON document `transcribe_audio` serializes with `json.dumps`:
either `{"error": msg}` or `{"text": .., "language": .., "segments": ..}`. -/
inductive TDoc where
  | err (msg : String)
  | ok (text : String) (language : String) (segments : List String)
deriving DecidableEq, Repr

/-- How a call of `transcribe_audio` terminates: with a returned JSON
document, or by an exception escaping the function uncaught. -/
inductive TOutcome where
  | returned (doc : TDoc)
  | raised (msg : String)
deriving DecidableEq, Repr

/-- `str(KeyError(k))` renders as the key wrapped in single quotes
(codepoint 39). -/
def keyErrorStr (k : String) : String :=
  String.singleton (Char.ofNat 39) ++ k ++ String.singleton (Char.ofNat 39)

/-- Lines 154-175 of `transcribe_audio`, after the audio-existence and
model-presence checks: ensure the library is installed, `import whisper`
(line 157 — outside every `try` block, so if the first import failed and
the import after a zero-exit pip install fails too, the `ImportError`
escapes uncaught), then load the model and transcribe inside the `try`.
`result["text"]` on a dictionary without the key raises `KeyError` inside
the `try`, hence an error document. -/
def transcribe_body (o : Oracle) (w : World) : TOutcome × World :=
  match install_whisper o w with
  | (false, w1) =>
      (TOutcome.returned (TDoc.err "Failed to install Whisper package"), w1)
  | (true, w1) =>
      if o.whisperImportable = false ∧ o.whisperImportAfterPip = false then
        (TOutcome.raised "ImportError: No module named whisper", w1)
      else
        match o.libResult with
        | Except.error e =>
            (TOutcome.returned (TDoc.err ("Transcription error: " ++ e)), w1)
        | Except.ok d =>
            match d.text with
            | none =>
                (TOutcome.returned
                  (TDoc.err ("Transcription error: " ++ keyErrorStr "text")),
                 w1)
            | some t =>
                (TOutcome.returned
                  (TDoc.ok t (d.language.getD "en") (d.segments.getD [])),
                 w1)

/-- `transcribe_audio(audio_path)` (lines 142-175).  Fails fast with an
error document when the audio path does not exist; then ensures the model
file (via `download_model` when absent) and the library, then transcribes. -/
def transcribe_audio (audio_path : String) (o : Oracle) (w : World) :
    TOutcome × World :=
  if w.audioFiles.contains audio_path = false then
    (TOutcome.returned
      (TDoc.err ("Audio file not found: " ++ audio_path)), w)
  else if w.modelFileExists = false then
    match download_model o w with
    | (false, w1, _) =>
        (TOutcome.returned (TDoc.err "Failed to download Whisper model"), w1)
    | (true, w1, _) => transcribe_body o w1
  else
    transcribe_body o w

/-- The parse of `argv` that `argparse` hands to `main` (lines 178-188):
either the `download` subcommand with its two boolean flags, the
`transcribe` subcommand with its positional audio path, or no subcommand at
all (`args.command is None` when argv is empty, since the subparsers are
not required). -/
inductive ParsedArgs where
  | download (verbose : Bool) (verify : Bool)
  | transcribe (audio_path : String)
  | noCommand
deriving DecidableEq, Repr

/-- Modelled from `argparse` semantics for the `download` subparser
(lines 183-185): the only options are `--verbose` and `--verify`,
any other token is an unrecognized argument, on which `argparse` prints
usage and exits with status 2. -/
def parseDownloadFlags : List String → Bool → Bool → Except Nat ParsedArgs
  | [], vb, vf => Except.ok (ParsedArgs.download vb vf)
  | a :: rest, vb, vf =>
      if a = "--verbose" then parseDownloadFlags rest true vf
      else if a = "--verify" then parseDownloadFlags rest vb true
      else Except.error 2

/-- Modelled from `argparse` semantics for the `transcribe` subparser
(lines 187-188): exactly one positional `audio_path`; a missing or extra
argument is an argparse error (usage printed, exit status 2). -/
def parseTranscribeArgs : List String → Except Nat ParsedArgs
  | [p] => Except.ok (ParsedArgs.transcribe p)
  | _ => Except.error 2

/-- Modelled from `argparse` semantics for `parser.parse_args()` (line 190)
with the subparsers of lines 179-188: empty argv parses to no command;
`download` takes its two flags; `transcribe` takes exactly one positional
`audio_path` (missing or extra arguments are an argparse error); any other
first token is an invalid subcommand choice.  On a parse error `argparse`
prints usage plus a message and raises `SystemExit(2)`. -/
def parse_args : List String → Except Nat ParsedArgs
  | [] => Except.ok ParsedArgs.noCommand
  | cmd :: rest =>
      if cmd = "download" then parseDownloadFlags rest false false
      else if cmd = "transcribe" then parseTranscribeArgs rest
      else Except.error 2

/-- Observable outcome of one process run: the exit status, the JSON
document printed on stdout by the transcribe branch (if any), whether usage
or help text was printed, whether the process died on an uncaught
exception, and the final world. -/
structure RunResult where
  exitCode : Nat
  printedJson : Option TDoc
  printedUsage : Bool
  uncaught : Bool
  world : World
deriving DecidableEq, Repr

/-- The dispatch on `args.command` in `main` (lines 192-206).
`download`: with `--verify`, a failed `verify_model_download` aborts with
exit 1 before any download; otherwise `download_model` runs and the exit
status is 0 on `True`, 1 on `False`.  The `--verbose` flag is never read.
`transcribe`: prints the JSON result and exits 0 — unless
`transcribe_audio` raised, in which case the interpreter prints a traceback
and exits with status 1.
No command: `parser.print_help()` then exit 1. -/
def runCmd (cmd : ParsedArgs) (o : Oracle) (w : World) : RunResult :=
  match cmd with
  | ParsedArgs.download _vb vf =>
      if vf then
        match verify_model_download o w with
        | (false, _, w1) =>
            { exitCode := 1, printedJson := none, printedUsage := false,
              uncaught := false, world := w1 }
        | (true, _, w1) =>
            match download_model o w1 with
            | (ok, w2, _) =>
                { exitCode := if ok then 0 else 1, printedJson := none,
                  printedUsage := false, uncaught := false, world := w2 }
      else
        match download_model o w with
        | (ok, w1, _) =>
            { exitCode := if ok then 0 else 1, printedJson := none,
              printedUsage := false, uncaught := false, world := w1 }
  | ParsedArgs.transcribe p =>
      match transcribe_audio p o w with
      | (TOutcome.returned doc, w1) =>
          { exitCode := 0, printedJson := some doc, printedUsage := false,
            uncaught := false, world := w1 }
      | (TOutcome.raised _, w1) =>
          { exitCode := 1, printedJson := none, printedUsage := false,
            uncaught := true, world := w1 }
  | ParsedArgs.noCommand =>
      { exitCode := 1, printedJson := none, printedUsage := true,
        uncaught := false, world := w }

/-- The continuation of `main` after argument parsing: an argparse error
prints usage and exits the process with the parser's status, a successful
parse dispatches on the command. -/
def dispatchParsed (e : Except Nat ParsedArgs) (o : Oracle) (w : World) :
    RunResult :=
  match e with
  | Except.error code =>
      { exitCode := code, printedJson := none, printedUsage := true,
        uncaught := false, world := w }
  | Except.ok cmd => runCmd cmd o w

/-- `main()` (lines 177-206): parse argv, then dispatch.  An argparse error
prints usage and exits with the parser's status (2). -/
def mainRun (argv : List String) (o : Oracle) (w : World) : RunResult :=
  dispatchParsed (parse_args argv) o w

/-- The module-level side effect `os.makedirs(MODELS_DIR, exist_ok=True)`
(line 65), run at import time on every invocation of the script, before
`main` is entered. -/
def importEffects (w : World) : World :=
  { w with modelsDirExists := true }

/-- One full run of the script: import-time effects, then `main`. -/
def runScript (argv : List String) (o : Oracle) (w : World) : RunResult :=
  mainRun argv o (importEffects w)

/-! ### Concrete fixtures used by witnesses and counterexamples -/

/-- A fresh world: nothing downloaded yet, no audio files. -/
def emptyWorld : World :=
  { modelFileExists := false, modelsDirExists := false, audioFiles := [],
    headOps := 0, getOps := 0, pipOps := 0 }

/-- A world that only has the audio file `a.wav`. -/
def audioWorld : World :=
  { emptyWorld with audioFiles := ["a.wav"] }

/-- A world with the model file already present and `a.wav` available. -/
def readyWorld : World :=
  { emptyWorld with
      modelFileExists := true
      modelsDirExists := true
      audioFiles := ["a.wav"] }

/-- A benign environment: everything reachable, importable and working;
the stubbed library returns `{"text": "hello", "language": "en"}`. -/
def okOracle : Oracle :=
  { headResult := HeadResult.resp 200 (some 77691713),
    getResult := Except.ok (), whisperImportable := true,
    pipWhisperOk := true, whisperImportAfterPip := true,
    libResult := Except.ok
      { text := some "hello", language := some "en", segments := none } }

/-- Like `okOracle` but the GET download raises an HTTP 404 error. -/
def notFoundOracle : Oracle :=
  { okOracle with getResult := Except.error "HTTP Error 404: Not Found" }

/-- Like `okOracle` but the library is not importable, pip reports a
zero exit, and the import after installation still fails. -/
def badImportOracle : Oracle :=
  { okOracle with
      whisperImportable := false
      pipWhisperOk := true
      whisperImportAfterPip := false }

/-- Like `okOracle` but the HEAD response carries no Content-Length. -/
def noLengthOracle : Oracle :=
  { okOracle with headResult := HeadResult.resp 200 none }

/-! ### Helper lemmas -/

theorem verify_world_eq (o : Oracle) (w : World) :
    (verify_model_download o w).2.2 = { w with headOps := w.headOps + 1 } := by
  unfold verify_model_download
  rcases o.headResult with msg | ⟨s, cl⟩
  · rfl
  · by_cases hs : s = 200
    · rcases cl with _ | n <;> simp [hs]
    · simp [hs]

theorem verify_getOps (o : Oracle) (w : World) :
    (verify_model_download o w).2.2.getOps = w.getOps := by
  rw [verify_world_eq]

theorem install_whisper_world (o : Oracle) (w : World) :
    (install_whisper o w).2 = w ∨
    (install_whisper o w).2 = { w with pipOps := w.pipOps + 1 } := by
  unfold install_whisper
  by_cases hi : o.whisperImportable
  · exact Or.inl (by simp [hi])
  · by_cases hp : o.pipWhisperOk
    · exact Or.inr (by simp [hi, hp])
    · exact Or.inr (by simp [hi, hp])

theorem download_model_dir (o : Oracle) (w : World)
    (h : w.modelsDirExists = true) :
    (download_model o w).2.1.modelsDirExists = true := by
  unfold download_model
  by_cases hm : w.modelFileExists
  · simp [hm, h]
  · rcases hg : o.getResult with e | u
    · by_cases hc : strContains e "HTTP Error 404" <;> simp [hm, hg, hc]
    · simp [hm, hg]

theorem transcribe_body_dir (o : Oracle) (w : World) :
    (transcribe_body o w).2.modelsDirExists = w.modelsDirExists := by
  unfold transcribe_body
  rcases hw : install_whisper o w with ⟨b, w1⟩
  have hw1 : w1.modelsDirExists = w.modelsDirExists := by
    rcases install_whisper_world o w with h | h <;> rw [hw] at h <;>
      simp at h <;> rw [h]
  cases b
  · simpa using hw1
  · by_cases hcond : o.whisperImportable = false ∧ o.whisperImportAfterPip = false
    · simpa [hcond] using hw1
    · rcases hl : o.libResult with e | d
      · simpa [hcond, hl] using hw1
      · rcases ht : d.text with _ | t <;> simpa [hcond, hl, ht] using hw1

theorem transcribe_audio_dir (path : String) (o : Oracle) (w : World)
    (h : w.modelsDirExists = true) :
    (transcribe_audio path o w).2.modelsDirExists = true := by
  unfold transcribe_audio
  split
  · simpa using h
  · split
    · split
      · next w1 snd heq =>
          have hd := download_model_dir o w h
          rw [heq] at hd
          simpa using hd
      · next w1 snd heq =>
          have hd := download_model_dir o w h
          rw [heq] at hd
          rw [transcribe_body_dir]
          simpa using hd
    · rw [transcribe_body_dir]; exact h

theorem runCmd_dir (cmd : ParsedArgs) (o : Oracle) (w : World)
    (h : w.modelsDirExists = true) :
    (runCmd cmd o w).world.modelsDirExists = true := by
  rcases cmd with ⟨vb, vf⟩ | p | _
  · unfold runCmd
    cases vf
    · rcases hd : download_model o w with ⟨b, w1, msgs⟩
      have := download_model_dir o w h
      rw [hd] at this
      simpa [hd] using this
    · rcases hv : verify_model_download o w with ⟨b, r, w1⟩
      have hw1 : w1.modelsDirExists = true := by
        have := verify_world_eq o w
        rw [hv] at this; simp at this; rw [this]; exact h
      cases b
      · simpa [hv] using hw1
      · rcases hd : download_model o w1 with ⟨b2, w2, msgs⟩
        have := download_model_dir o w1 hw1
        rw [hd] at this
        simpa [hv, hd] using this
  · unfold runCmd
    rcases ht : transcribe_audio p o w with ⟨out, w1⟩
    have hw1 : w1.modelsDirExists = true := by
      have := transcribe_audio_dir p o w h; rw [ht] at this; exact this
    cases out <;> simpa [ht] using hw1
  · simpa [runCmd] using h

theorem runCmd_download_vb (vb1 vb2 vf : Bool) (o : Oracle) (w : World) :
    runCmd (ParsedArgs.download vb1 vf) o w
      = runCmd (ParsedArgs.download vb2 vf) o w := rfl

theorem dispatch_flags_vb (o : Oracle) (w : World) :
    ∀ (rest : List String) (vb1 vb2 vf : Bool),
      dispatchParsed (parseDownloadFlags rest vb1 vf) o w
        = dispatchParsed (parseDownloadFlags rest vb2 vf) o w := by
  intro rest
  induction rest with
  | nil =>
      intro vb1 vb2 vf
      simp only [parseDownloadFlags, dispatchParsed]
      exact runCmd_download_vb vb1 vb2 vf o w
  | cons a rest ih =>
      intro vb1 vb2 vf
      by_cases h1 : a = "--verbose"
      · subst h1
        show dispatchParsed (parseDownloadFlags rest true vf) o w
          = dispatchParsed (parseDownloadFlags rest true vf) o w
        rfl
      · by_cases h2 : a = "--verify"
        · subst h2
          show dispatchParsed (parseDownloadFlags rest vb1 true) o w
            = dispatchParsed (parseDownloadFlags rest vb2 true) o w
          exact ih vb1 vb2 true
        · simp only [parseDownloadFlags, if_neg h1, if_neg h2]

theorem parseDownloadFlags_error_two :
    ∀ (rest : List String) (vb vf : Bool) (c : Nat),
      parseDownloadFlags rest vb vf = Except.error c → c = 2 := by
  intro rest
  induction rest with
  | nil => intro vb vf c h; exact absurd h (by simp [parseDownloadFlags])
  | cons a rest ih =>
      intro vb vf c h
      by_cases h1 : a = "--verbose"
      · rw [parseDownloadFlags, if_pos h1] at h
        exact ih true vf c h
      · by_cases h2 : a = "--verify"
        · rw [parseDownloadFlags, if_neg h1, if_pos h2] at h
          exact ih vb true c h
        · rw [parseDownloadFlags, if_neg h1, if_neg h2] at h
          exact (Except.error.inj h).symm

theorem parse_args_error_two :
    ∀ (argv : List String) (c : Nat),
      parse_args argv = Except.error c → c = 2 := by
  intro argv c h
  rcases argv with _ | ⟨a, rest⟩
  · exact absurd h (by simp [parse_args])
  · rw [parse_args] at h
    by_cases h1 : a = "download"
    · rw [if_pos h1] at h
      exact parseDownloadFlags_error_two rest false false c h
    · rw [if_neg h1] at h
      by_cases h2 : a = "transcribe"
      · rw [if_pos h2] at h
        rcases rest with _ | ⟨p, rs⟩
        · exact (Except.error.inj h).symm
        · rcases rs with _ | ⟨q, rs2⟩
          · exact absurd h (by simp [parseTranscribeArgs])
          · exact (Except.error.inj h).symm
      · rw [if_neg h2] at h
        exact (Except.error.inj h).symm

theorem transcribe_no_raise (path : String) (o : Oracle) (w : World)
    (h : o.whisperImportable = false → o.pipWhisperOk = true →
          o.whisperImportAfterPip = true) :
    ∃ doc w1, transcribe_audio path o w = (TOutcome.returned doc, w1) := by
  have hbody : ∀ w2, ∃ doc w1,
      transcribe_body o w2 = (TOutcome.returned doc, w1) := by
    intro w2
    unfold transcribe_body install_whisper
    cases hi : o.whisperImportable with
    | true =>
        simp only [hi, if_true]
        rcases hl : o.libResult with e | d
        · simp [hl]
        · rcases ht : d.text with _ | t <;> simp [hl, ht]
    | false =>
        cases hp : o.pipWhisperOk with
        | false => simp [hi, hp]
        | true =>
            have hap : o.whisperImportAfterPip = true := h hi hp
            simp [hi, hp, hap]
            rcases hl : o.libResult with e | d
            · simp [hl]
            · rcases ht : d.text with _ | t <;> simp [hl, ht]
  unfold transcribe_audio
  split
  · exact ⟨_, _, rfl⟩
  · split
    · split
      · exact ⟨_, _, rfl⟩
      · exact hbody _
    · exact hbody _

/-! ### Claims -/

/-- C1 counterexample: in an environment where the library is not
importable, pip reports a zero exit, and the import after installation
still fails, the `import whisper` statement on line 157 — outside every
`try` block — raises an uncaught `ImportError`: the process dies with a
traceback and a nonzero exit status, and no JSON document is printed. -/
theorem C1_counterexample :
    (runScript ["transcribe", "a.wav"] badImportOracle readyWorld).uncaught
        = true ∧
    (runScript ["transcribe", "a.wav"] badImportOracle readyWorld).exitCode
        ≠ 0 := by
  decide

/-- C1 (amended): for every audio path, provided that a pip installation
reporting success actually renders the library importable, the transcribe
subcommand never raises an uncaught fault: it exits 0 and prints a JSON
document, every failure being embedded in that document. -/
theorem C1_transcribe_always_exits_zero (path : String) (o : Oracle)
    (w : World)
    (h : o.whisperImportable = false → o.pipWhisperOk = true →
          o.whisperImportAfterPip = true) :
    (runScript ["transcribe", path] o w).exitCode = 0 ∧
    (runScript ["transcribe", path] o w).uncaught = false ∧
    ∃ doc, (runScript ["transcribe", path] o w).printedJson = some doc := by
  obtain ⟨doc, w1, hdoc⟩ := transcribe_no_raise path o (importEffects w) h
  have hrun : runScript ["transcribe", path] o w
      = { exitCode := 0, printedJson := some doc, printedUsage := false,
          uncaught := false, world := w1 } := by
    simp only [runScript, mainRun]
    rw [show parse_args ["transcribe", path]
          = Except.ok (ParsedArgs.transcribe path) from rfl]
    simp only [dispatchParsed, runCmd, hdoc]
  rw [hrun]
  exact ⟨rfl, rfl, doc, rfl⟩

/-- C1 witness: a concrete benign run exits 0 with a printed document. -/
theorem C1_witness :
    (runScript ["transcribe", "a.wav"] okOracle readyWorld).exitCode = 0 ∧
    (runScript ["transcribe", "a.wav"] okOracle readyWorld).uncaught
        = false ∧
    ∃ doc, (runScript ["transcribe", "a.wav"] okOracle readyWorld).printedJson
        = some doc :=
  C1_transcribe_always_exits_zero "a.wav" okOracle readyWorld (by decide)

/-- C2: when the audio path does not exist, `transcribe_audio` returns the
error document naming the missing file with the world untouched — so before
any download (`getOps` unchanged) or library installation (`pipOps`
unchanged) — and the process still exits 0 with that document printed. -/
theorem C2_missing_audio_fail_fast (path : String) (o : Oracle) (w : World)
    (h : w.audioFiles.contains path = false) :
    transcribe_audio path o w
      = (TOutcome.returned (TDoc.err ("Audio file not found: " ++ path)),
         w) ∧
    (runScript ["transcribe", path] o w).exitCode = 0 ∧
    (runScript ["transcribe", path] o w).printedJson
      = some (TDoc.err ("Audio file not found: " ++ path)) ∧
    (runScript ["transcribe", path] o w).world.getOps = w.getOps ∧
    (runScript ["transcribe", path] o w).world.pipOps = w.pipOps := by
  have hgen : ∀ w2 : World, w2.audioFiles.contains path = false →
      transcribe_audio path o w2
        = (TOutcome.returned
            (TDoc.err ("Audio file not found: " ++ path)), w2) := by
    intro w2 h2
    unfold transcribe_audio
    rw [h2]
    rfl
  have h2 : (importEffects w).audioFiles.contains path = false := h
  have hrun : runScript ["transcribe", path] o w
      = { exitCode := 0,
          printedJson :=
            some (TDoc.err ("Audio file not found: " ++ path)),
          printedUsage := false, uncaught := false,
          world := importEffects w } := by
    simp only [runScript, mainRun]
    rw [show parse_args ["transcribe", path]
          = Except.ok (ParsedArgs.transcribe path) from rfl]
    simp only [dispatchParsed, runCmd, hgen (importEffects w) h2]
  refine ⟨hgen w h, ?_, ?_, ?_, ?_⟩ <;> rw [hrun] <;> rfl

/-- C2 witness: a concrete run on a nonexistent audio path. -/
theorem C2_witness :
    transcribe_audio "missing.wav" okOracle emptyWorld
      = (TOutcome.returned
          (TDoc.err ("Audio file not found: " ++ "missing.wav")),
         emptyWorld) ∧
    (runScript ["transcribe", "missing.wav"] okOracle emptyWorld).exitCode
      = 0 := by
  have h := C2_missing_audio_fail_fast "missing.wav" okOracle emptyWorld
    (by decide)
  exact ⟨h.1, h.2.1⟩

/-- C3: with the model file already present, `download_model` returns
success immediately with the world unchanged — zero network activity
(`getOps` and `headOps` untouched) and no validation of any kind — and a
second call on the resulting world does exactly the same, so the second of
two calls performs zero additional network activity. -/
theorem C3_download_idempotent (o : Oracle) (w : World)
    (h : w.modelFileExists = true) :
    download_model o w
      = (true, w, ["Model already exists at: " ++ WHISPER_MODEL_PATH]) ∧
    (download_model o w).2.1.getOps = w.getOps ∧
    (download_model o w).2.1.headOps = w.headOps ∧
    download_model o (download_model o w).2.1
      = (true, w, ["Model already exists at: " ++ WHISPER_MODEL_PATH]) := by
  have h1 : download_model o w
      = (true, w, ["Model already exists at: " ++ WHISPER_MODEL_PATH]) := by
    unfold download_model
    rw [h]
    rfl
  refine ⟨h1, by rw [h1], by rw [h1], by rw [h1]; exact h1⟩

/-- C3 witness: a concrete world with the model file present. -/
theorem C3_witness :
    download_model okOracle readyWorld
      = (true, readyWorld,
         ["Model already exists at: " ++ WHISPER_MODEL_PATH]) ∧
    (download_model okOracle readyWorld).2.1.getOps
      = readyWorld.getOps :=
  ⟨(C3_download_idempotent okOracle readyWorld (by decide)).1,
   (C3_download_idempotent okOracle readyWorld (by decide)).2.1⟩

/-- C4: on a successful transcription (audio present, model present,
library importable, library returns a dictionary with a `text` key),
`transcribe_audio` returns a document with exactly `text` from the result,
`language` defaulting to "en" when absent, and `segments` defaulting to the
empty sequence when absent; the run prints it and exits 0. -/
theorem C4_success_fields (path t : String) (o : Oracle) (w : World)
    (d : LibDict)
    (ha : w.audioFiles.contains path = true)
    (hm : w.modelFileExists = true)
    (hi : o.whisperImportable = true)
    (hl : o.libResult = Except.ok d)
    (ht : d.text = some t) :
    (transcribe_audio path o w).1
      = TOutcome.returned
          (TDoc.ok t (d.language.getD "en") (d.segments.getD [])) ∧
    (runScript ["transcribe", path] o w).exitCode = 0 ∧
    (runScript ["transcribe", path] o w).printedJson
      = some (TDoc.ok t (d.language.getD "en") (d.segments.getD [])) := by
  have hgen : ∀ w2 : World, w2.audioFiles.contains path = true →
      w2.modelFileExists = true →
      transcribe_audio path o w2
        = (TOutcome.returned
            (TDoc.ok t (d.language.getD "en") (d.segments.getD [])),
           w2) := by
    intro w2 h2 h3
    unfold transcribe_audio
    rw [h2, h3]
    rw [if_neg (by simp), if_neg (by simp)]
    unfold transcribe_body install_whisper
    rw [if_pos (by simp [hi])]
    simp [hi, hl, ht]
  have hrun : runScript ["transcribe", path] o w
      = { exitCode := 0,
          printedJson :=
            some (TDoc.ok t (d.language.getD "en") (d.segments.getD [])),
          printedUsage := false, uncaught := false,
          world := importEffects w } := by
    simp only [runScript, mainRun]
    rw [show parse_args ["transcribe", path]
          = Except.ok (ParsedArgs.transcribe path) from rfl]
    simp only [dispatchParsed, runCmd, hgen (importEffects w) ha hm]
  refine ⟨?_, ?_, ?_⟩
  · rw [hgen w ha hm]
  · rw [hrun]
  · rw [hrun]

/-- C4 witness: the stubbed library returning
`{"text": "hello", "language": "en"}` yields `text == "hello"` and
`language == "en"` with empty segments. -/
theorem C4_witness :
    (transcribe_audio "a.wav" okOracle readyWorld).1
      = TOutcome.returned (TDoc.ok "hello" "en" []) ∧
    (runScript ["transcribe", "a.wav"] okOracle readyWorld).printedJson
      = some (TDoc.ok "hello" "en" []) :=
  ⟨(C4_success_fields "a.wav" "hello" okOracle readyWorld
      { text := some "hello", language := some "en", segments := none }
      (by decide) (by decide) (by decide) rfl rfl).1,
   (C4_success_fields "a.wav" "hello" okOracle readyWorld
      { text := some "hello", language := some "en", segments := none }
      (by decide) (by decide) (by decide) rfl rfl).2.2⟩

/-- C5: for the download subcommand, a failed reachability check under
`--verify` exits 1 without attempting the download (`getOps` unchanged); a
passing check, or no `--verify`, runs `download_model` and the exit status
is 0 exactly when it succeeds; any download failure returns failure with a
human-readable message, and a `str(e)` containing "HTTP Error 404" adds the
moved-or-renamed annotation. -/
theorem C5_download_exit_codes (vb : Bool) (o : Oracle) (w : World) :
    ((verify_model_download o w).1 = false →
        (runCmd (ParsedArgs.download vb true) o w).exitCode = 1 ∧
        (runCmd (ParsedArgs.download vb true) o w).world.getOps
          = w.getOps) ∧
    ((verify_model_download o w).1 = true →
        (runCmd (ParsedArgs.download vb true) o w).exitCode
          = if (download_model o ((verify_model_download o w).2.2)).1
            then 0 else 1) ∧
    ((runCmd (ParsedArgs.download vb false) o w).exitCode
        = if (download_model o w).1 then 0 else 1) ∧
    (∀ e, o.getResult = Except.error e → w.modelFileExists = false →
        (download_model o w).1 = false ∧
        ("Error downloading model: " ++ e) ∈ (download_model o w).2.2 ∧
        (strContains e "HTTP Error 404" = true →
          "The model may have been moved or renamed. Please check the repository for the latest model URLs."
            ∈ (download_model o w).2.2)) := by
  refine ⟨?_, ?_, ?_, ?_⟩
  · intro hv
    rcases hveq : verify_model_download o w with ⟨b, r, w1⟩
    rw [hveq] at hv
    simp only at hv
    subst hv
    have hw1 : w1.getOps = w.getOps := by
      have hq := verify_world_eq o w
      rw [hveq] at hq
      simp only at hq
      rw [hq]
    constructor
    · simp only [runCmd, if_pos, hveq]
    · simp only [runCmd, if_pos, hveq]
      exact hw1
  · intro hv
    rcases hveq : verify_model_download o w with ⟨b, r, w1⟩
    rw [hveq] at hv
    simp only at hv
    subst hv
    rcases hd : download_model o w1 with ⟨ok, w2, m⟩
    simp only [runCmd, hveq, hd]
    cases ok <;> rfl
  · rcases hd : download_model o w with ⟨ok, w1, m⟩
    simp only [runCmd, hd]
    cases ok <;> rfl
  · intro e hg hm
    by_cases hc : strContains e "HTTP Error 404"
    · simp [download_model, hm, hg, hc]
    · simp [download_model, hm, hg, hc]

/-- C5 witness: a concrete 404 download failure exits 1 and prints the
moved-or-renamed annotation. -/
theorem C5_witness :
    (runCmd (ParsedArgs.download false false) notFoundOracle
        emptyWorld).exitCode = 1 ∧
    (download_model notFoundOracle emptyWorld).1 = false ∧
    "The model may have been moved or renamed. Please check the repository for the latest model URLs."
      ∈ (download_model notFoundOracle emptyWorld).2.2 := by
  have h := C5_download_exit_codes false notFoundOracle emptyWorld
  have h4 := h.2.2.2 "HTTP Error 404: Not Found" rfl rfl
  refine ⟨?_, h4.1, h4.2.2 (by decide)⟩
  rw [h.2.2.1]
  decide

/-- C6: `verify_model_download` issues a metadata-only HEAD request to the
model URL with a fixed 10-second timeout; on an HTTP 200 response with a
Content-Length header it returns success reporting exactly that size
(one HEAD operation, nothing else changed), and it returns failure on a
raised exception (timeout included) or a non-200 status. -/
theorem C6_verify_head (o : Oracle) (w : World) :
    modelHeadRequest.method = "HEAD" ∧
    modelHeadRequest.timeoutSeconds = 10 ∧
    modelHeadRequest.url = WHISPER_MODEL_URL ∧
    (∀ n, o.headResult = HeadResult.resp 200 (some n) →
        verify_model_download o w
          = (true, some n, { w with headOps := w.headOps + 1 })) ∧
    (∀ msg, o.headResult = HeadResult.exc msg →
        (verify_model_download o w).1 = false) ∧
    (∀ s cl, o.headResult = HeadResult.resp s cl → s ≠ 200 →
        (verify_model_download o w).1 = false) := by
  refine ⟨rfl, rfl, rfl, ?_, ?_, ?_⟩
  · intro n hn
    simp [verify_model_download, hn]
  · intro msg hm
    simp [verify_model_download, hm]
  · intro s cl hr hs
    simp [verify_model_download, hr, hs]

/-- C6 witness: a concrete 200 response with a Content-Length header. -/
theorem C6_witness :
    verify_model_download okOracle emptyWorld
      = (true, some 77691713,
         { emptyWorld with headOps := emptyWorld.headOps + 1 }) :=
  (C6_verify_head okOracle emptyWorld).2.2.2.1 77691713 rfl

/-- C7 counterexample: on the unrecognized input `foo`, the argument
parser rejects the invocation with exit status 2, not 1. -/
theorem C7_counterexample :
    (runScript ["foo"] okOracle emptyWorld).exitCode ≠ 1 := by
  decide

/-- C7 (amended): with no subcommand the CLI prints usage help and exits
1; unrecognized or malformed input is instead rejected by the argument
parser, which prints usage and exits with status 2. -/
theorem C7_usage_exit_codes (o : Oracle) (w : World) :
    ((runScript [] o w).exitCode = 1 ∧
     (runScript [] o w).printedUsage = true) ∧
    (∀ argv c, parse_args argv = Except.error c →
        (runScript argv o w).exitCode = 2 ∧
        (runScript argv o w).printedUsage = true) := by
  constructor
  · exact ⟨rfl, rfl⟩
  · intro argv c h
    have hc := parse_args_error_two argv c h
    subst hc
    have hrun : runScript argv o w
        = { exitCode := 2, printedJson := none, printedUsage := true,
            uncaught := false, world := importEffects w } := by
      simp only [runScript, mainRun]
      rw [h]
      rfl
    rw [hrun]
    exact ⟨rfl, rfl⟩

/-- C7 witness: the concrete unrecognized input `foo`. -/
theorem C7_witness :
    (runScript ["foo"] okOracle emptyWorld).exitCode = 2 ∧
    (runScript ["foo"] okOracle emptyWorld).printedUsage = true :=
  (C7_usage_exit_codes okOracle emptyWorld).2 ["foo"] 2 rfl

/-- C8: the `--verbose` flag does not alter the download subcommand's
behavior: for every environment, dispatching download with any value of
the verbose flag gives identical results, and a full run with `--verbose`
inserted into argv equals the run without it. -/
theorem C8_verbose_noninterference (o : Oracle) (w : World) :
    (∀ vb1 vb2 vf : Bool,
        runCmd (ParsedArgs.download vb1 vf) o w
          = runCmd (ParsedArgs.download vb2 vf) o w) ∧
    (∀ rest : List String,
        runScript ("download" :: "--verbose" :: rest) o w
          = runScript ("download" :: rest) o w) := by
  constructor
  · intro vb1 vb2 vf
    exact runCmd_download_vb vb1 vb2 vf o w
  · intro rest
    show dispatchParsed (parseDownloadFlags rest true false) o
          (importEffects w)
        = dispatchParsed (parseDownloadFlags rest false false) o
          (importEffects w)
    exact dispatch_flags_vb o (importEffects w) rest true false false

/-- C9: on every invocation — any argv, transcribe and invalid input
included — the models directory is created at module import time, before
any command is dispatched (a run is exactly `mainRun` started on the
import-updated world), and it still exists when the run ends. -/
theorem C9_models_dir_at_import (argv : List String) (o : Oracle)
    (w : World) :
    (importEffects w).modelsDirExists = true ∧
    runScript argv o w = mainRun argv o (importEffects w) ∧
    (runScript argv o w).world.modelsDirExists = true := by
  refine ⟨rfl, rfl, ?_⟩
  show (mainRun argv o (importEffects w)).world.modelsDirExists = true
  unfold mainRun
  rcases hp : parse_args argv with c | cmd
  · rfl
  · exact runCmd_dir cmd o (importEffects w) rfl

/-- C10: an HTTP 200 HEAD response with no Content-Length header makes
`verify_model_download` return failure, not success (the size computation
raises `TypeError` on `int(None)` and the handler converts it into a
`False` return), and no size is reported. -/
theorem C10_no_content_length (o : Oracle) (w : World)
    (h : o.headResult = HeadResult.resp 200 none) :
    (verify_model_download o w).1 = false ∧
    (verify_model_download o w).2.1 = none := by
  simp [verify_model_download, h]

/-- C10 witness: a concrete 200 response without Content-Length. -/
theorem C10_witness :
    (verify_model_download noLengthOracle emptyWorld).1 = false ∧
    (verify_model_download noLengthOracle emptyWorld).2.1 = none :=
  C10_no_content_length noLengthOracle emptyWorld rfl
